import Mathlib

/-!
Shallow embedding of the staging-to-account reconciliation subsystem of
lukisan.ink: the IndexedDB guest-image staging store (`guestImageStorage.ts`),
the guest-session registry and temp-image orchestration (`tempImageStorage.ts`),
the logo save path (`logoSaver.ts`) and the login-transition transfer guard
(`Router.tsx`).  Times are milliseconds-since-epoch as `Nat`; the browser
storage and database reads are modelled by explicit state passing and
`Except`/oracle parameters.
-/

/-- Fixed TTL stamped on a staged guest image by `saveGuestImageLocally`:
2 hours in milliseconds (`timestamp + (2 * 60 * 60 * 1000)`). -/
def STAGING_TTL : Nat := 2 * 60 * 60 * 1000

/-- Guest session duration used by `tempImageStorage.ts`
(`SESSION_DURATION = 24 * 60 * 60 * 1000`). -/
def SESSION_DURATION : Nat := 24 * 60 * 60 * 1000

/-- A staged guest artifact as persisted in IndexedDB
(`GuestImageData` in `guestImageStorage.ts`); the binary blob itself is
opaque and is not needed by any claim, so it is elided. -/
structure GuestImageData where
  id : String
  prompt : String
  category : String
  aspectRatio : String
  createdAt : Nat
  expiresAt : Nat
deriving DecidableEq, Repr

/-- The IndexedDB staging store, restricted to the keys with the
`guest-image-` prefix, in key-enumeration order. -/
abbrev StagingStore : Type := List GuestImageData

/-- Result of `saveGuestImageLocally` (`{ success, imageId?, error? }`). -/
structure SaveLocalResult where
  success : Bool
  imageId : Option String
  error : Option String
deriving DecidableEq, Repr

/-- Embedding of `saveGuestImageLocally`: stamps `createdAt := t`,
`expiresAt := t + 2h`, generates the key
`guest-image-${timestamp}-${randomId}` and stores the record. -/
def saveGuestImageLocally (t : Nat) (randomId : String)
    (prompt category aspectRatio : String) (store : StagingStore) :
    GuestImageData × StagingStore :=
  let imageId := "guest-image-" ++ toString t ++ "-" ++ randomId
  let img : GuestImageData :=
    { id := imageId, prompt := prompt, category := category,
      aspectRatio := aspectRatio, createdAt := t, expiresAt := t + STAGING_TTL }
  (img, store ++ [img])

/-- Embedding of `saveGuestImageLocally` with the surrounding try/catch:
an IndexedDB write failure (`ioOk = false`) is caught and surfaced to the
caller as `{ success: false, error: message }`; it is not thrown. -/
def saveGuestImageLocallyTotal (ioOk : Bool) (t : Nat) (randomId : String)
    (prompt category aspectRatio : String) (store : StagingStore) :
    SaveLocalResult × StagingStore :=
  if ioOk then
    let (img, store') := saveGuestImageLocally t randomId prompt category aspectRatio store
    ({ success := true, imageId := some img.id, error := none }, store')
  else
    ({ success := false, imageId := none,
       error := some "Failed to save image locally" }, store)

/-- Embedding of `getGuestImages`: scans the store once with a single
`now := Date.now()` captured before the loop; an entry with `now > expiresAt`
is deleted (`del(key)`) and excluded, every other entry is kept and returned.
Returns `(images returned, store after the scan)`. -/
def getGuestImages (now : Nat) (store : StagingStore) :
    List GuestImageData × StagingStore :=
  match store with
  | [] => ([], [])
  | img :: rest =>
      let r := getGuestImages now rest
      if now > img.expiresAt then r
      else (img :: r.1, img :: r.2)

/-- Embedding of `getGuestImages` together with its outermost try/catch:
when the underlying store read fails the error is caught and an empty list
is returned (`catch -> return []`); the caller receives no error value. -/
def getGuestImagesTotal (read : Except String StagingStore) (now : Nat) :
    List GuestImageData :=
  match read with
  | .error _ => []
  | .ok store => (getGuestImages now store).1

/-- The `TempImage` compatibility object built by `storeTempImage`. -/
structure TempImage where
  id : String
  sessionId : String
  imageUrl : String
  prompt : String
  category : String
  aspectRatio : String
  createdAt : Nat
  expiresAt : Nat
  transferred : Bool
deriving DecidableEq, Repr

/-- Output of `storeTempImage`: the `TempImage` returned to the caller,
the `GuestImageData` record actually persisted, and the store afterwards. -/
structure StoreTempOut where
  tempImage : TempImage
  stored : GuestImageData
  store : StagingStore
deriving DecidableEq, Repr

/-- Embedding of `storeTempImage` (success path): persists the blob through
`saveGuestImageLocally` at time `t1`, then builds the returned `TempImage`
at time `t2` (the later `Date.now()` call) with
`expiresAt := Date.now() + SESSION_DURATION`. -/
def storeTempImage (t1 t2 : Nat) (randomId sessionId imageUrl prompt category
    aspectRatio : String) (store : StagingStore) : StoreTempOut :=
  let (img, store') := saveGuestImageLocally t1 randomId prompt category aspectRatio store
  { tempImage :=
      { id := img.id, sessionId := sessionId, imageUrl := imageUrl,
        prompt := prompt, category := category, aspectRatio := aspectRatio,
        createdAt := t2, expiresAt := t2 + SESSION_DURATION,
        transferred := false },
    stored := img,
    store := store' }

/-- Account tier as stored in the `users` table (`'pro'` vs free). -/
inductive Tier where
  | pro : Tier
  | free : Tier
deriving DecidableEq, Repr

/-- The columns of the `users` row read by `checkUserCredits` and
`deductUserCredits`; `last_generation_date` is kept as its date part
(the code compares `last_generation_date?.split('T')[0]` against today). -/
structure UserRow where
  tier : Tier
  credits_remaining : Int
  daily_generations : Int
  last_generation_date : Option String
deriving DecidableEq, Repr

/-- Result of `checkUserCredits` (`{ available, isProUser, canGenerate }`). -/
structure CreditInfo where
  available : Int
  isProUser : Bool
  canGenerate : Bool
deriving DecidableEq, Repr

/-- Embedding of `checkUserCredits`: `read` is the outcome of the `users`
row fetch and `today` the current date string.  A fetch error is thrown and
caught by the surrounding try/catch, which returns
`available = 0, isProUser = false, canGenerate = false`.  For pro users the
available units are `credits_remaining`; for free users
`max 0 (3 - dailyUsed)` where `dailyUsed` counts only if the last
generation date is today. -/
def checkUserCredits (read : Except String UserRow) (today : String) : CreditInfo :=
  match read with
  | .error _ => { available := 0, isProUser := false, canGenerate := false }
  | .ok user =>
      match user.tier with
      | .pro =>
          { available := user.credits_remaining, isProUser := true,
            canGenerate := user.credits_remaining > 0 }
      | .free =>
          let dailyUsed : Int :=
            if user.last_generation_date = some today then user.daily_generations else 0
          let available : Int := max 0 (3 - dailyUsed)
          { available := available, isProUser := false,
            canGenerate := available > 0 }

/-- Embedding of `deductUserCredits` (success path): pro users get
`credits_remaining - count`; free users get `daily_generations + count` if
the last generation date is today, else a reset to `count`; both paths stamp
`last_generation_date := today`. -/
def deductUserCredits (user : UserRow) (count : Nat) (isProUser : Bool)
    (today : String) : UserRow :=
  if isProUser then
    { user with credits_remaining := user.credits_remaining - (count : Int),
                last_generation_date := some today }
  else
    let newDaily : Int :=
      if user.last_generation_date = some today then
        user.daily_generations + (count : Int)
      else (count : Int)
    { user with daily_generations := newDaily,
                last_generation_date := some today }

/-- Observable effects of one upload-and-save attempt against the durable
store and the metadata table.  `objectRemains` records whether the uploaded
payload is still present in durable storage when the attempt returns. -/
structure SaveAttempt where
  success : Bool
  uploadSucceeded : Bool
  metadataAttempted : Bool
  removeAttempted : Bool
  objectRemains : Bool
deriving DecidableEq, Repr

/-- Embedding of the `uploadAndSaveLogo` closure defined inside
`transferTempImagesToUser`: upload to storage, then insert the metadata row.
An upload error returns failure; a database error returns failure with the
message — and performs no removal of the just-uploaded object, which
therefore remains in storage without a metadata record. -/
def uploadAndSaveLogo (uploadOk dbOk : Bool) : SaveAttempt :=
  if uploadOk = false then
    { success := false, uploadSucceeded := false, metadataAttempted := false,
      removeAttempted := false, objectRemains := false }
  else if dbOk = false then
    { success := false, uploadSucceeded := true, metadataAttempted := true,
      removeAttempted := false, objectRemains := true }
  else
    { success := true, uploadSucceeded := true, metadataAttempted := true,
      removeAttempted := false, objectRemains := true }

/-- Embedding of the storage/database core of `handleSaveGeneratedLogo`
(`logoSaver.ts`): on a database insertion error it attempts to remove the
just-uploaded file inside its own try/catch (best effort, `cleanupOk` says
whether that removal succeeds) and then fails; the cleanup's own failure is
caught and never escalated. -/
def handleSaveGeneratedLogo (uploadOk dbOk cleanupOk : Bool) : SaveAttempt :=
  if uploadOk = false then
    { success := false, uploadSucceeded := false, metadataAttempted := false,
      removeAttempted := false, objectRemains := false }
  else if dbOk = false then
    { success := false, uploadSucceeded := true, metadataAttempted := true,
      removeAttempted := true, objectRemains := !cleanupOk }
  else
    { success := true, uploadSucceeded := true, metadataAttempted := true,
      removeAttempted := false, objectRemains := true }

/-- Per-item outcome of the transfer loop in
`transferGuestImagesToUserAccount`. -/
inductive ItemOutcome where
  | skippedExpired : ItemOutcome
  | uploadFailed : ItemOutcome
  | metaFailed : ItemOutcome
  | transferred : ItemOutcome
deriving DecidableEq, Repr

/-- Embedding of `del(imageKey)` on the staging store: removes the entry
with the given id (a no-op if absent). -/
def removeImage (id : String) (store : StagingStore) : StagingStore :=
  store.filter (fun g => g.id ≠ id)

/-- One iteration of the loop in `transferGuestImagesToUserAccount`:
the code first re-checks expiry with a fresh `Date.now()` (`t`) and skips
an already-expired item; otherwise it calls `uploadAndSaveLogo` and
classifies the result. -/
def processItem (uploadOk dbOk : Bool) (t : Nat) (img : GuestImageData) :
    ItemOutcome :=
  if t > img.expiresAt then .skippedExpired
  else
    let a := uploadAndSaveLogo uploadOk dbOk
    if a.success then .transferred
    else if a.uploadSucceeded then .metaFailed
    else .uploadFailed

/-- Error message pushed when the per-item expiry re-check fires. -/
def expiredMsg (id : String) : String := "Image " ++ id ++ " has expired"

/-- Error message pushed when `uploadAndSaveLogo` reports failure. -/
def uploadFailMsg (id : String) : String := "Upload failed for " ++ id

/-- Aggregate state produced by the per-item loop of
`transferGuestImagesToUserAccount`.  `uploads`, `metaWrites` and `removes`
count the collaborator calls actually attempted (storage upload, metadata
insert, compensating storage delete); `orphans` counts items whose payload
was left in durable storage without a metadata record. -/
structure LoopOut where
  transferredCount : Nat
  failedCount : Nat
  errors : List String
  store : StagingStore
  outcomes : List ItemOutcome
  uploads : Nat
  metaWrites : Nat
  removes : Nat
  orphans : Nat
deriving DecidableEq, Repr

/-- Embedding of the `for` loop of `transferGuestImagesToUserAccount`,
processing `images` starting at index `i`.  `uploadOk j` / `dbOk j` are the
oracles for the j-th item's storage upload and metadata insert, and
`procTime j` is `Date.now()` observed when the j-th item is processed. -/
def transferLoop (uploadOk dbOk : Nat → Bool) (procTime : Nat → Nat)
    (i : Nat) (images : List GuestImageData) (store : StagingStore) : LoopOut :=
  match images with
  | [] =>
      { transferredCount := 0, failedCount := 0, errors := [], store := store,
        outcomes := [], uploads := 0, metaWrites := 0, removes := 0, orphans := 0 }
  | img :: rest =>
      let oc := processItem (uploadOk i) (dbOk i) (procTime i) img
      match oc with
      | .skippedExpired =>
          let r := transferLoop uploadOk dbOk procTime (i + 1) rest
            (removeImage img.id store)
          { r with failedCount := r.failedCount + 1,
                   errors := expiredMsg img.id :: r.errors,
                   outcomes := ItemOutcome.skippedExpired :: r.outcomes }
      | .uploadFailed =>
          let r := transferLoop uploadOk dbOk procTime (i + 1) rest store
          { r with failedCount := r.failedCount + 1,
                   errors := uploadFailMsg img.id :: r.errors,
                   outcomes := ItemOutcome.uploadFailed :: r.outcomes,
                   uploads := r.uploads + 1 }
      | .metaFailed =>
          let r := transferLoop uploadOk dbOk procTime (i + 1) rest store
          { r with failedCount := r.failedCount + 1,
                   errors := uploadFailMsg img.id :: r.errors,
                   outcomes := ItemOutcome.metaFailed :: r.outcomes,
                   uploads := r.uploads + 1, metaWrites := r.metaWrites + 1,
                   orphans := r.orphans + 1 }
      | .transferred =>
          let r := transferLoop uploadOk dbOk procTime (i + 1) rest
            (removeImage img.id store)
          { r with transferredCount := r.transferredCount + 1,
                   outcomes := ItemOutcome.transferred :: r.outcomes,
                   uploads := r.uploads + 1, metaWrites := r.metaWrites + 1 }

/-- Result object of `transferGuestImagesToUserAccount` together with the
observable effects of its loop. -/
structure GuestTransferOut where
  success : Bool
  transferredCount : Nat
  failedCount : Nat
  errors : List String
  store : StagingStore
  outcomes : List ItemOutcome
  uploads : Nat
  metaWrites : Nat
  removes : Nat
  orphans : Nat
deriving DecidableEq, Repr

/-- Embedding of `transferGuestImagesToUserAccount`: runs the loop over the
provided list and sets
`success := transferredCount > 0 || failedCount == 0` (an empty list takes
the early return with `success := true`, which coincides). -/
def transferGuestImagesToUserAccount (uploadOk dbOk : Nat → Bool)
    (procTime : Nat → Nat) (images : List GuestImageData)
    (store : StagingStore) : GuestTransferOut :=
  let r := transferLoop uploadOk dbOk procTime 0 images store
  { success := decide (0 < r.transferredCount) || decide (r.failedCount = 0),
    transferredCount := r.transferredCount, failedCount := r.failedCount,
    errors := r.errors, store := r.store, outcomes := r.outcomes,
    uploads := r.uploads, metaWrites := r.metaWrites, removes := r.removes,
    orphans := r.orphans }

/-- The `TransferResult` object returned by `transferTempImagesToUser`. -/
structure TransferResult where
  success : Bool
  transferredCount : Nat
  failedCount : Nat
  insufficientCredits : Bool
  creditsNeeded : Nat
  creditsAvailable : Int
  errors : List String
deriving DecidableEq, Repr

/-- Result of a full orchestrator run plus its observable side effects:
the staging store afterwards, the per-item outcomes, collaborator call
counts, the number of `users`-row reads performed by the quota check, the
list of `deductUserCredits` invocations as `(count, isProUser)` pairs, and
the account row after any deduction. -/
structure RunOut where
  result : TransferResult
  store : StagingStore
  outcomes : List ItemOutcome
  uploads : Nat
  metaWrites : Nat
  removes : Nat
  orphans : Nat
  quotaReads : Nat
  deductCalls : List (Nat × Bool)
  userAfter : Except String UserRow
deriving Repr

/-- Embedding of the orchestrator `transferTempImagesToUser`.
Step 1 enumerates the staging store at time `now0`; an empty live list
returns empty success at once.  Step 2 reads credits; if
`!canGenerate || available < liveCount` it returns the insufficient-credits
result untouched.  Step 3 verifies the auth session (`sessionOk`).  Steps
4-6 run `transferGuestImagesToUserAccount` with the per-item oracles, and
step 7 calls `deductUserCredits` once iff `transferredCount > 0`. -/
def transferTempImagesToUser (now0 : Nat) (readUser : Except String UserRow)
    (today : String) (sessionOk : Bool) (uploadOk dbOk : Nat → Bool)
    (procTime : Nat → Nat) (store : StagingStore) : RunOut :=
  let enum := getGuestImages now0 store
  let live := enum.1
  let store1 := enum.2
  if live.length = 0 then
    { result := { success := true, transferredCount := 0, failedCount := 0,
                  insufficientCredits := false, creditsNeeded := 0,
                  creditsAvailable := 0, errors := [] },
      store := store1, outcomes := [], uploads := 0, metaWrites := 0,
      removes := 0, orphans := 0, quotaReads := 0, deductCalls := [],
      userAfter := readUser }
  else
    let creditInfo := checkUserCredits readUser today
    if creditInfo.canGenerate = false ∨ creditInfo.available < (live.length : Int) then
      { result := { success := false, transferredCount := 0, failedCount := 0,
                    insufficientCredits := true, creditsNeeded := live.length,
                    creditsAvailable := creditInfo.available,
                    errors := ["Insufficient credits. Need " ++
                      toString live.length ++ ", have " ++
                      toString creditInfo.available] },
        store := store1, outcomes := [], uploads := 0, metaWrites := 0,
        removes := 0, orphans := 0, quotaReads := 1, deductCalls := [],
        userAfter := readUser }
    else if sessionOk = false then
      { result := { success := false, transferredCount := 0, failedCount := 0,
                    insufficientCredits := false, creditsNeeded := live.length,
                    creditsAvailable := creditInfo.available,
                    errors := ["Authentication error. Please sign in again."] },
        store := store1, outcomes := [], uploads := 0, metaWrites := 0,
        removes := 0, orphans := 0, quotaReads := 1, deductCalls := [],
        userAfter := readUser }
    else
      let g := transferGuestImagesToUserAccount uploadOk dbOk procTime live store1
      let deducts : List (Nat × Bool) :=
        if 0 < g.transferredCount then [(g.transferredCount, creditInfo.isProUser)]
        else []
      let userAfter : Except String UserRow :=
        if 0 < g.transferredCount then
          match readUser with
          | .ok u => .ok (deductUserCredits u g.transferredCount creditInfo.isProUser today)
          | .error e => .error e
        else readUser
      { result := { success := g.success, transferredCount := g.transferredCount,
                    failedCount := g.failedCount, insufficientCredits := false,
                    creditsNeeded := live.length,
                    creditsAvailable := creditInfo.available,
                    errors := g.errors },
        store := g.store, outcomes := g.outcomes, uploads := g.uploads,
        metaWrites := g.metaWrites, removes := g.removes, orphans := g.orphans,
        quotaReads := 1, deductCalls := deducts, userAfter := userAfter }

/-- Events observed by the transfer guard in `Router.tsx`:
`observe u` is a render effect pass with current identity `u`
(the effect at line 381 plus, on a user change to `none`, the logout-reset
effect at line 495); `timerFire` is the 3-second `setTimeout` callback
actually starting the transfer run; `complete` is the in-flight run
terminating (success, failure, or the no-images early exit). -/
inductive GuardEvent where
  | observe : Option Nat → GuardEvent
  | timerFire : GuardEvent
  | complete : GuardEvent
deriving DecidableEq, Repr

/-- State of the guard: the `prevUserRef`, `transferAttemptedRef` and
`transferInProgressRef` refs, whether a scheduled transfer timer is pending,
whether the previous effect pass returned a cleanup (which will
`clearTimeout` on the next pass), plus instrumentation counting runs
currently in flight and runs ever started. -/
structure GuardState where
  prevUser : Option Nat
  attempted : Bool
  inProgress : Bool
  timerPending : Bool
  cleanupArmed : Bool
  running : Nat
  started : Nat
deriving DecidableEq, Repr

/-- Initial guard state on mount. -/
def guardInit : GuardState :=
  { prevUser := none, attempted := false, inProgress := false,
    timerPending := false, cleanupArmed := false, running := 0, started := 0 }

/-- Transition function of the guard, read off `Router.tsx` lines 381-500.
On `observe u`: the pending cleanup (if any) cancels a not-yet-fired timer;
then, if the login-transition condition
`!prevUser && user && !attempted && !inProgress` holds, both refs are set
and the transfer timer is scheduled, and the effect returns early without
updating `prevUserRef`; otherwise `prevUserRef := u`, and when `u = none`
the logout effect clears both refs.  `timerFire` starts the run;
`complete` ends it and releases `transferInProgressRef`. -/
def guardStep (s : GuardState) : GuardEvent → GuardState
  | .observe u =>
      let s1 := if s.cleanupArmed then
          { s with timerPending := false, cleanupArmed := false }
        else s
      if s1.prevUser = none ∧ u ≠ none ∧ s1.attempted = false ∧ s1.inProgress = false then
        { s1 with attempted := true, inProgress := true,
                  timerPending := true, cleanupArmed := true }
      else
        let s2 := { s1 with prevUser := u }
        if u = none then { s2 with attempted := false, inProgress := false }
        else s2
  | .timerFire =>
      if s.timerPending then
        { s with timerPending := false, running := s.running + 1,
                 started := s.started + 1 }
      else s
  | .complete =>
      if 0 < s.running then
        { s with running := s.running - 1, inProgress := false }
      else s

/-- Invariant of the guard along traces that contain no logout observation:
at most one run is ever started (counting a scheduled-but-not-yet-fired
timer), a cleared `transferAttemptedRef` means nothing was started, and the
number of in-flight runs never exceeds the number started. -/
def guardInv (s : GuardState) : Prop :=
  s.started + (if s.timerPending then 1 else 0) ≤ 1 ∧
  (s.attempted = false → s.started = 0 ∧ s.timerPending = false) ∧
  s.running ≤ s.started

/-- The live-enumeration scan is a filter: both the returned list and the
store left behind are exactly the entries with `expiresAt ≥ now`. -/
theorem getGuestImages_eq_filter (now : Nat) (store : StagingStore) :
    getGuestImages now store =
      (store.filter (fun g => decide (now ≤ g.expiresAt)),
       store.filter (fun g => decide (now ≤ g.expiresAt))) := by
  induction store with
  | nil => rfl
  | cons img rest ih =>
      by_cases h : now > img.expiresAt
      · have h2 : ¬ now ≤ img.expiresAt := Nat.not_le.mpr h
        simp [getGuestImages, ih, List.filter_cons, h, h2]
      · have h2 : now ≤ img.expiresAt := Nat.le_of_not_lt h
        simp [getGuestImages, ih, List.filter_cons, h, h2]

/-- The per-item loop accounts every item exactly once:
transferred plus failed equals the number of items processed. -/
theorem transferLoop_counts (uploadOk dbOk : Nat → Bool) (procTime : Nat → Nat)
    (i : Nat) (images : List GuestImageData) (store : StagingStore) :
    (transferLoop uploadOk dbOk procTime i images store).transferredCount +
      (transferLoop uploadOk dbOk procTime i images store).failedCount =
      images.length := by
  induction images generalizing i store with
  | nil => rfl
  | cons img rest ih =>
      rcases h : processItem (uploadOk i) (dbOk i) (procTime i) img with _ | _ | _ | _ <;>
        simp only [transferLoop, h, List.length_cons] <;>
        first
          | (have h0 := ih (i + 1) (removeImage img.id store); omega)
          | (have h0 := ih (i + 1) store; omega)

/-- Characterization of the per-item expiry re-check: an item is skipped as
expired exactly when its `expiresAt` lies strictly before the `Date.now()`
observed at its processing step. -/
theorem processItem_skipped_iff (u d : Bool) (t : Nat) (img : GuestImageData) :
    processItem u d t img = ItemOutcome.skippedExpired ↔ img.expiresAt < t := by
  unfold processItem
  rcases Nat.lt_or_ge img.expiresAt t with h | h
  · simp [h]
  · have h2 : ¬ t > img.expiresAt := Nat.not_lt.mpr h
    simp only [if_neg h2]
    constructor
    · intro hc
      exfalso
      rcases u <;> rcases d <;> simp [uploadAndSaveLogo] at hc
    · intro hc
      exact absurd hc (Nat.not_lt.mpr h)

/-- The loop records one outcome per enumerated item, in order, and that
outcome is computed by the per-item step `processItem` at the item's own
processing time. -/
theorem transferLoop_outcomes (uploadOk dbOk : Nat → Bool) (procTime : Nat → Nat)
    (i : Nat) (images : List GuestImageData) (store : StagingStore) :
    (transferLoop uploadOk dbOk procTime i images store).outcomes =
      (images.enumFrom i).map
        (fun q => processItem (uploadOk q.1) (dbOk q.1) (procTime q.1) q.2) := by
  induction images generalizing i store with
  | nil => rfl
  | cons img rest ih =>
      rcases h : processItem (uploadOk i) (dbOk i) (procTime i) img with _ | _ | _ | _ <;>
        simp [transferLoop, h, List.enumFrom, ih]

/-- The loop attempts an upload exactly for the enumerated items that are
still unexpired at their processing time. -/
theorem transferLoop_uploads (uploadOk dbOk : Nat → Bool) (procTime : Nat → Nat)
    (i : Nat) (images : List GuestImageData) (store : StagingStore) :
    (transferLoop uploadOk dbOk procTime i images store).uploads =
      ((images.enumFrom i).filter
        (fun q => decide (procTime q.1 ≤ q.2.expiresAt))).length := by
  induction images generalizing i store with
  | nil => rfl
  | cons img rest ih =>
      rcases h : processItem (uploadOk i) (dbOk i) (procTime i) img with _ | _ | _ | _
      · have hexp : img.expiresAt < procTime i :=
          (processItem_skipped_iff _ _ _ _).mp h
        have hle : ¬ procTime i ≤ img.expiresAt := Nat.not_le.mpr hexp
        simp [transferLoop, h, List.enumFrom, List.filter_cons, hle, ih]
      all_goals
        have hns : processItem (uploadOk i) (dbOk i) (procTime i) img ≠
            ItemOutcome.skippedExpired := by simp [h]
        have hexp : ¬ img.expiresAt < procTime i := fun hc =>
          hns ((processItem_skipped_iff _ _ _ _).mpr hc)
        have hle : procTime i ≤ img.expiresAt := Nat.le_of_not_lt hexp
        simp [transferLoop, h, List.enumFrom, List.filter_cons, hle, ih]

/-- The loop never attempts a compensating delete of an uploaded payload:
the inner `uploadAndSaveLogo` has no removal call on its failure paths. -/
theorem transferLoop_removes (uploadOk dbOk : Nat → Bool) (procTime : Nat → Nat)
    (i : Nat) (images : List GuestImageData) (store : StagingStore) :
    (transferLoop uploadOk dbOk procTime i images store).removes = 0 := by
  induction images generalizing i store with
  | nil => rfl
  | cons img rest ih =>
      rcases h : processItem (uploadOk i) (dbOk i) (procTime i) img with _ | _ | _ | _ <;>
        simp [transferLoop, h, ih]

/-- One guard step preserves the logout-free invariant, provided the step is
not a logout observation. -/
theorem guardStep_preserves (s : GuardState) (e : GuardEvent)
    (hinv : guardInv s) (hne : e ≠ GuardEvent.observe none) :
    guardInv (guardStep s e) := by
  obtain ⟨pu, att, ip, tp, ca, run, st⟩ := s
  cases e with
  | observe u =>
      cases u with
      | none => exact absurd rfl hne
      | some v =>
          unfold guardInv at hinv ⊢
          rcases pu with _ | x <;> rcases att <;> rcases ip <;> rcases tp <;>
            rcases ca <;> simp_all [guardStep] <;> omega
  | timerFire =>
      unfold guardInv at hinv ⊢
      rcases att <;> rcases tp <;> simp_all [guardStep] <;> omega
  | complete =>
      unfold guardInv at hinv ⊢
      simp only [guardStep]
      split_ifs with hr <;> rcases att <;> rcases tp <;> simp_all <;> omega

/-- The logout-free invariant holds after any fold of guard steps over a
trace without logout observations, starting from an invariant state. -/
theorem guardInv_foldl (events : List GuardEvent) (s : GuardState)
    (hs : guardInv s) (h : ∀ e ∈ events, e ≠ GuardEvent.observe none) :
    guardInv (events.foldl guardStep s) := by
  induction events generalizing s with
  | nil => exact hs
  | cons e rest ih =>
      simp only [List.foldl_cons]
      exact ih (guardStep s e)
        (guardStep_preserves s e hs (h e (by simp)))
        (fun x hx => h x (by simp [hx]))

/-- An identity observation that arrives while a run is in flight is
dropped: it starts no run and schedules no timer (nothing is queued). -/
theorem guardStep_observe_inflight (s : GuardState) (u : Option Nat)
    (hs : s.inProgress = true) :
    (guardStep s (GuardEvent.observe u)).started = s.started ∧
    (guardStep s (GuardEvent.observe u)).running = s.running ∧
    ((guardStep s (GuardEvent.observe u)).timerPending = true →
      s.timerPending = true) := by
  obtain ⟨pu, att, ip, tp, ca, run, st⟩ := s
  simp only at hs
  subst hs
  rcases u <;> rcases pu with _ | x <;> rcases att <;> rcases tp <;>
    rcases ca <;> simp [guardStep]

/-- C1.  All-or-nothing quota gate: on any run whose enumeration finds
N > 0 live staged artifacts, if the credit evaluation says
`canGenerate = false` or `available < N`, the orchestrator returns
immediately with the insufficient-credits outcome carrying
`creditsNeeded = N` and `creditsAvailable = available`, performs no uploads,
no metadata writes and no credit deduction, and leaves all N live artifacts
in the staging store. -/
theorem run_insufficient_quota_all_or_nothing
    (now0 : Nat) (readUser : Except String UserRow) (today : String)
    (sessionOk : Bool) (uploadOk dbOk : Nat → Bool) (procTime : Nat → Nat)
    (store : StagingStore)
    (hN : 0 < (getGuestImages now0 store).1.length)
    (hq : (checkUserCredits readUser today).canGenerate = false ∨
          (checkUserCredits readUser today).available <
            ((getGuestImages now0 store).1.length : Int)) :
    (transferTempImagesToUser now0 readUser today sessionOk uploadOk dbOk
        procTime store).result.insufficientCredits = true ∧
    (transferTempImagesToUser now0 readUser today sessionOk uploadOk dbOk
        procTime store).result.creditsNeeded =
      (getGuestImages now0 store).1.length ∧
    (transferTempImagesToUser now0 readUser today sessionOk uploadOk dbOk
        procTime store).result.creditsAvailable =
      (checkUserCredits readUser today).available ∧
    (transferTempImagesToUser now0 readUser today sessionOk uploadOk dbOk
        procTime store).result.transferredCount = 0 ∧
    (transferTempImagesToUser now0 readUser today sessionOk uploadOk dbOk
        procTime store).uploads = 0 ∧
    (transferTempImagesToUser now0 readUser today sessionOk uploadOk dbOk
        procTime store).metaWrites = 0 ∧
    (transferTempImagesToUser now0 readUser today sessionOk uploadOk dbOk
        procTime store).deductCalls = [] ∧
    (transferTempImagesToUser now0 readUser today sessionOk uploadOk dbOk
        procTime store).store = (getGuestImages now0 store).1 := by
  have hfil := getGuestImages_eq_filter now0 store
  have hne : ¬ (getGuestImages now0 store).1.length = 0 := by omega
  unfold transferTempImagesToUser
  rw [if_neg hne, if_pos hq]
  refine ⟨rfl, rfl, rfl, rfl, rfl, rfl, rfl, ?_⟩
  rw [hfil]

/-- C1 witness: Scenario B of the spec — five live artifacts against a
metered account with two remaining credits. -/
theorem run_insufficient_quota_all_or_nothing_witness :
    0 < ((getGuestImages 50
      [{ id := "guest-image-1-a", prompt := "p", category := "c",
         aspectRatio := "1:1", createdAt := 0, expiresAt := 100 },
       { id := "guest-image-1-b", prompt := "p", category := "c",
         aspectRatio := "1:1", createdAt := 0, expiresAt := 100 },
       { id := "guest-image-1-c", prompt := "p", category := "c",
         aspectRatio := "1:1", createdAt := 0, expiresAt := 100 },
       { id := "guest-image-1-d", prompt := "p", category := "c",
         aspectRatio := "1:1", createdAt := 0, expiresAt := 100 },
       { id := "guest-image-1-e", prompt := "p", category := "c",
         aspectRatio := "1:1", createdAt := 0, expiresAt := 100 }]).1.length) ∧
    (transferTempImagesToUser 50
      (.ok { tier := .pro, credits_remaining := 2, daily_generations := 0,
             last_generation_date := none }) "2025-06-09" true
      (fun _ => true) (fun _ => true) (fun _ => 60)
      [{ id := "guest-image-1-a", prompt := "p", category := "c",
         aspectRatio := "1:1", createdAt := 0, expiresAt := 100 },
       { id := "guest-image-1-b", prompt := "p", category := "c",
         aspectRatio := "1:1", createdAt := 0, expiresAt := 100 },
       { id := "guest-image-1-c", prompt := "p", category := "c",
         aspectRatio := "1:1", createdAt := 0, expiresAt := 100 },
       { id := "guest-image-1-d", prompt := "p", category := "c",
         aspectRatio := "1:1", createdAt := 0, expiresAt := 100 },
       { id := "guest-image-1-e", prompt := "p", category := "c",
         aspectRatio := "1:1", createdAt := 0, expiresAt := 100 }]).result.insufficientCredits = true := by
  refine ⟨by decide, ?_⟩
  exact (run_insufficient_quota_all_or_nothing 50
    (.ok { tier := .pro, credits_remaining := 2, daily_generations := 0,
           last_generation_date := none }) "2025-06-09" true
    (fun _ => true) (fun _ => true) (fun _ => 60) _
    (by decide) (by decide)).1

/-- C2.  Batch deduction: on every run the credit deduction is invoked after
the per-item loop, exactly once when `transferredCount > 0` and not at all
when it is zero, always with `count = transferredCount`, which never exceeds
the number of live artifacts enumerated at the start of the run. -/
theorem run_batch_deduction_once
    (now0 : Nat) (readUser : Except String UserRow) (today : String)
    (sessionOk : Bool) (uploadOk dbOk : Nat → Bool) (procTime : Nat → Nat)
    (store : StagingStore) :
    (transferTempImagesToUser now0 readUser today sessionOk uploadOk dbOk
        procTime store).deductCalls =
      (if 0 < (transferTempImagesToUser now0 readUser today sessionOk uploadOk
          dbOk procTime store).result.transferredCount then
        [((transferTempImagesToUser now0 readUser today sessionOk uploadOk dbOk
            procTime store).result.transferredCount,
          (checkUserCredits readUser today).isProUser)]
      else []) ∧
    (transferTempImagesToUser now0 readUser today sessionOk uploadOk dbOk
        procTime store).result.transferredCount ≤
      (getGuestImages now0 store).1.length := by
  unfold transferTempImagesToUser
  by_cases h0 : (getGuestImages now0 store).1.length = 0
  · rw [if_pos h0]
    simp
  · rw [if_neg h0]
    by_cases hq : (checkUserCredits readUser today).canGenerate = false ∨
        (checkUserCredits readUser today).available <
          ((getGuestImages now0 store).1.length : Int)
    · rw [if_pos hq]
      simp
    · rw [if_neg hq]
      by_cases hs : sessionOk = false
      · rw [if_pos hs]
        simp
      · rw [if_neg hs]
        have hc := transferLoop_counts uploadOk dbOk procTime 0
          (getGuestImages now0 store).1 (getGuestImages now0 store).2
        exact ⟨rfl, by simp only [transferGuestImagesToUserAccount]; omega⟩

/-- C6.  The quota read fails closed: when the `users` row cannot be read,
`checkUserCredits` returns zero available units and `canGenerate = false`
instead of propagating the error or allowing the operation. -/
theorem checkUserCredits_fail_closed (e : String) (today : String) :
    checkUserCredits (Except.error e) today =
      { available := 0, isProUser := false, canGenerate := false } := rfl

/-- C6 witness: a concrete failing read is denied. -/
theorem checkUserCredits_fail_closed_witness :
    checkUserCredits (Except.error "db unreachable") "2025-06-09" =
      { available := 0, isProUser := false, canGenerate := false } :=
  checkUserCredits_fail_closed "db unreachable" "2025-06-09"

/-- C10.  The `TempImage` handed back by a successful `storeTempImage`
carries `expiresAt = creation time + 24 h` (`SESSION_DURATION`), while the
record actually persisted in the staging store carries
`expiresAt = creation time + 2 h` (`STAGING_TTL`); since the `TempImage` is
stamped no earlier than the stored record, the reported expiry strictly
exceeds the one governing the stored artifact. -/
theorem storeTempImage_expiry_mismatch
    (t1 t2 : Nat) (randomId sessionId imageUrl prompt category
      aspectRatio : String) (store : StagingStore) (h : t1 ≤ t2) :
    (storeTempImage t1 t2 randomId sessionId imageUrl prompt category
        aspectRatio store).tempImage.expiresAt = t2 + SESSION_DURATION ∧
    (storeTempImage t1 t2 randomId sessionId imageUrl prompt category
        aspectRatio store).stored.expiresAt = t1 + STAGING_TTL ∧
    (storeTempImage t1 t2 randomId sessionId imageUrl prompt category
        aspectRatio store).stored.expiresAt <
      (storeTempImage t1 t2 randomId sessionId imageUrl prompt category
        aspectRatio store).tempImage.expiresAt := by
  refine ⟨rfl, rfl, ?_⟩
  show t1 + STAGING_TTL < t2 + SESSION_DURATION
  unfold STAGING_TTL SESSION_DURATION
  omega

/-- C10 witness: staging at millisecond 1000, with the `TempImage` built at
millisecond 1500. -/
theorem storeTempImage_expiry_mismatch_witness :
    1000 ≤ 1500 ∧
    (storeTempImage 1000 1500 "r" "s" "u" "p" "c" "1:1" []).stored.expiresAt <
      (storeTempImage 1000 1500 "r" "s" "u" "p" "c" "1:1" []).tempImage.expiresAt :=
  ⟨by decide,
   (storeTempImage_expiry_mismatch 1000 1500 "r" "s" "u" "p" "c" "1:1" []
     (by decide)).2.2⟩

/-- C7.  Empty-store run is a no-op: whenever the live enumeration at the
start of a run is empty, the orchestrator immediately returns the
empty-success outcome (success, zero transferred, zero failed, no errors)
and performs no uploads, no metadata writes, no credit reads and no
deductions. -/
theorem run_empty_enumeration_noop
    (now0 : Nat) (readUser : Except String UserRow) (today : String)
    (sessionOk : Bool) (uploadOk dbOk : Nat → Bool) (procTime : Nat → Nat)
    (store : StagingStore)
    (h : (getGuestImages now0 store).1 = []) :
    (transferTempImagesToUser now0 readUser today sessionOk uploadOk dbOk
        procTime store).result.success = true ∧
    (transferTempImagesToUser now0 readUser today sessionOk uploadOk dbOk
        procTime store).result.transferredCount = 0 ∧
    (transferTempImagesToUser now0 readUser today sessionOk uploadOk dbOk
        procTime store).result.failedCount = 0 ∧
    (transferTempImagesToUser now0 readUser today sessionOk uploadOk dbOk
        procTime store).result.insufficientCredits = false ∧
    (transferTempImagesToUser now0 readUser today sessionOk uploadOk dbOk
        procTime store).result.errors = [] ∧
    (transferTempImagesToUser now0 readUser today sessionOk uploadOk dbOk
        procTime store).uploads = 0 ∧
    (transferTempImagesToUser now0 readUser today sessionOk uploadOk dbOk
        procTime store).metaWrites = 0 ∧
    (transferTempImagesToUser now0 readUser today sessionOk uploadOk dbOk
        procTime store).quotaReads = 0 ∧
    (transferTempImagesToUser now0 readUser today sessionOk uploadOk dbOk
        procTime store).deductCalls = [] := by
  have h0 : (getGuestImages now0 store).1.length = 0 := by rw [h]; rfl
  unfold transferTempImagesToUser
  rw [if_pos h0]
  exact ⟨rfl, rfl, rfl, rfl, rfl, rfl, rfl, rfl, rfl⟩

/-- C7 witness: a store whose only artifact has already expired — the
second-run-after-drain situation — enumerates empty and the run is the
empty success. -/
theorem run_empty_enumeration_noop_witness :
    ((getGuestImages 10
      [{ id := "guest-image-1-a", prompt := "p", category := "c",
         aspectRatio := "1:1", createdAt := 0, expiresAt := 5 }]).1 = []) ∧
    (transferTempImagesToUser 10
      (.ok { tier := .pro, credits_remaining := 7, daily_generations := 0,
             last_generation_date := none }) "2025-06-09" true
      (fun _ => true) (fun _ => true) (fun _ => 10)
      [{ id := "guest-image-1-a", prompt := "p", category := "c",
         aspectRatio := "1:1", createdAt := 0, expiresAt := 5 }]).result.success = true := by
  refine ⟨by decide, ?_⟩
  exact (run_empty_enumeration_noop 10
    (.ok { tier := .pro, credits_remaining := 7, daily_generations := 0,
           last_generation_date := none }) "2025-06-09" true
    (fun _ => true) (fun _ => true) (fun _ => 10) _ (by decide)).1

/-- C5 counterexample: the boundary case.  An artifact whose `expiresAt`
equals the scan time is returned by the live enumeration even though its
`expiresAt <= now`, because the code evicts only on the strict comparison
`now > expiresAt`. -/
theorem listLive_boundary_counterexample :
    (getGuestImages 100
      [{ id := "guest-image-1-a", prompt := "p", category := "c",
         aspectRatio := "1:1", createdAt := 0, expiresAt := 100 }]).1 =
      [{ id := "guest-image-1-a", prompt := "p", category := "c",
         aspectRatio := "1:1", createdAt := 0, expiresAt := 100 }] ∧
    ({ id := "guest-image-1-a", prompt := "p", category := "c",
       aspectRatio := "1:1", createdAt := 0,
       expiresAt := 100 } : GuestImageData).expiresAt ≤ 100 := by
  decide

/-- C5 amended: the live enumeration returns exactly the stored artifacts
with `expiresAt >= now` (so an artifact whose `expiresAt` equals `now` is
still returned), and every artifact encountered with `expiresAt < now` is
deleted from the store during the scan and excluded from the result. -/
theorem listLive_returns_unexpired (now : Nat) (store : StagingStore) :
    (getGuestImages now store).1 =
      store.filter (fun g => decide (now ≤ g.expiresAt)) ∧
    (getGuestImages now store).2 =
      store.filter (fun g => decide (now ≤ g.expiresAt)) := by
  have h := getGuestImages_eq_filter now store
  exact ⟨by rw [h], by rw [h]⟩

/-- C8 counterexample: a failing store read in the live enumeration is
swallowed, not surfaced — the caller receives the same empty list as for a
genuinely empty store, with no error value anywhere in the return type. -/
theorem listLive_error_swallowed_counterexample :
    getGuestImagesTotal (Except.error "staging store unreadable") 0 = [] ∧
    getGuestImagesTotal (Except.ok []) 0 = [] := by
  exact ⟨rfl, rfl⟩

/-- C8 amended: `put` (`saveGuestImageLocally`) surfaces a staging I/O
failure to its caller as `{ success: false, error }`, but the live
enumeration (`getGuestImages`, and `getTempImages` built on it) catches any
store read error and returns `[]`, indistinguishable from an empty store. -/
theorem staging_io_error_surfacing
    (e : String) (now t : Nat)
    (randomId prompt category aspectRatio : String) (store : StagingStore) :
    (saveGuestImageLocallyTotal false t randomId prompt category aspectRatio
        store).1.success = false ∧
    (saveGuestImageLocallyTotal false t randomId prompt category aspectRatio
        store).1.error = some "Failed to save image locally" ∧
    getGuestImagesTotal (Except.error e) now = [] := by
  exact ⟨rfl, rfl, rfl⟩

/-- C3 counterexample: an artifact live at enumeration time (now = 50,
expiry 100) but expired by its processing time (200) is NOT attempted —
the loop re-checks expiry with a fresh `Date.now()`, skips the upload,
deletes the artifact from staging and counts it failed, contradicting the
claim that expiry is checked only at enumeration time. -/
theorem expiry_recheck_counterexample :
    ((getGuestImages 50
      [{ id := "guest-image-1-a", prompt := "p", category := "c",
         aspectRatio := "1:1", createdAt := 0, expiresAt := 100 }]).1.length = 1) ∧
    (transferTempImagesToUser 50
      (.ok { tier := .pro, credits_remaining := 7, daily_generations := 0,
             last_generation_date := none }) "2025-06-09" true
      (fun _ => true) (fun _ => true) (fun _ => 200)
      [{ id := "guest-image-1-a", prompt := "p", category := "c",
         aspectRatio := "1:1", createdAt := 0, expiresAt := 100 }]).uploads = 0 ∧
    (transferTempImagesToUser 50
      (.ok { tier := .pro, credits_remaining := 7, daily_generations := 0,
             last_generation_date := none }) "2025-06-09" true
      (fun _ => true) (fun _ => true) (fun _ => 200)
      [{ id := "guest-image-1-a", prompt := "p", category := "c",
         aspectRatio := "1:1", createdAt := 0, expiresAt := 100 }]).result.failedCount = 1 ∧
    (transferTempImagesToUser 50
      (.ok { tier := .pro, credits_remaining := 7, daily_generations := 0,
             last_generation_date := none }) "2025-06-09" true
      (fun _ => true) (fun _ => true) (fun _ => 200)
      [{ id := "guest-image-1-a", prompt := "p", category := "c",
         aspectRatio := "1:1", createdAt := 0, expiresAt := 100 }]).outcomes =
      [ItemOutcome.skippedExpired] ∧
    (transferTempImagesToUser 50
      (.ok { tier := .pro, credits_remaining := 7, daily_generations := 0,
             last_generation_date := none }) "2025-06-09" true
      (fun _ => true) (fun _ => true) (fun _ => 200)
      [{ id := "guest-image-1-a", prompt := "p", category := "c",
         aspectRatio := "1:1", createdAt := 0, expiresAt := 100 }]).store = [] := by
  decide

/-- C3 amended: expiry IS re-checked per item.  The loop classifies every
enumerated item, in order, by `processItem` evaluated at that item's own
processing time — an item whose `expiresAt` has passed by then is skipped
(deleted from staging, counted failed) — and an upload is attempted exactly
for the items still unexpired at their processing time. -/
theorem expiry_rechecked_per_item
    (uploadOk dbOk : Nat → Bool) (procTime : Nat → Nat)
    (images : List GuestImageData) (store : StagingStore) :
    (transferGuestImagesToUserAccount uploadOk dbOk procTime images
        store).outcomes =
      (images.enumFrom 0).map
        (fun q => processItem (uploadOk q.1) (dbOk q.1) (procTime q.1) q.2) ∧
    (transferGuestImagesToUserAccount uploadOk dbOk procTime images
        store).uploads =
      ((images.enumFrom 0).filter
        (fun q => decide (procTime q.1 ≤ q.2.expiresAt))).length := by
  exact ⟨transferLoop_outcomes uploadOk dbOk procTime 0 images store,
         transferLoop_uploads uploadOk dbOk procTime 0 images store⟩

/-- C4 counterexample: in the orchestrator run, an item whose storage upload
succeeds but whose metadata insert fails is recorded failed — but no
compensating delete of the just-uploaded payload is attempted, and the
payload is left orphaned in durable storage. -/
theorem compensation_not_attempted_counterexample :
    (uploadAndSaveLogo true false).uploadSucceeded = true ∧
    (uploadAndSaveLogo true false).success = false ∧
    (uploadAndSaveLogo true false).removeAttempted = false ∧
    (uploadAndSaveLogo true false).objectRemains = true ∧
    (transferTempImagesToUser 50
      (.ok { tier := .pro, credits_remaining := 7, daily_generations := 0,
             last_generation_date := none }) "2025-06-09" true
      (fun _ => true) (fun _ => false) (fun _ => 60)
      [{ id := "guest-image-1-a", prompt := "p", category := "c",
         aspectRatio := "1:1", createdAt := 0, expiresAt := 100 }]).removes = 0 ∧
    (transferTempImagesToUser 50
      (.ok { tier := .pro, credits_remaining := 7, daily_generations := 0,
             last_generation_date := none }) "2025-06-09" true
      (fun _ => true) (fun _ => false) (fun _ => 60)
      [{ id := "guest-image-1-a", prompt := "p", category := "c",
         aspectRatio := "1:1", createdAt := 0, expiresAt := 100 }]).orphans = 1 ∧
    (transferTempImagesToUser 50
      (.ok { tier := .pro, credits_remaining := 7, daily_generations := 0,
             last_generation_date := none }) "2025-06-09" true
      (fun _ => true) (fun _ => false) (fun _ => 60)
      [{ id := "guest-image-1-a", prompt := "p", category := "c",
         aspectRatio := "1:1", createdAt := 0, expiresAt := 100 }]).result.failedCount = 1 := by
  decide

/-- C4 amended: on a metadata-write failure after a successful upload the
orchestrator's transfer path records the item failed and continues with the
remaining items, but attempts no compensating delete (the payload is
orphaned); best-effort compensation exists only in the standalone
`handleSaveGeneratedLogo` save path, where the delete is attempted and its
own failure is swallowed rather than escalated. -/
theorem metadata_failure_compensation_split
    (cleanupOk : Bool) (uploadOk dbOk : Nat → Bool) (procTime : Nat → Nat)
    (images : List GuestImageData) (store : StagingStore) :
    (uploadAndSaveLogo true false).removeAttempted = false ∧
    (uploadAndSaveLogo true false).success = false ∧
    (handleSaveGeneratedLogo true false cleanupOk).removeAttempted = true ∧
    (handleSaveGeneratedLogo true false cleanupOk).success = false ∧
    (transferGuestImagesToUserAccount uploadOk dbOk procTime images
        store).outcomes.length = images.length ∧
    (transferGuestImagesToUserAccount uploadOk dbOk procTime images
        store).removes = 0 := by
  refine ⟨rfl, rfl, rfl, rfl, ?_, ?_⟩
  · show (transferLoop uploadOk dbOk procTime 0 images store).outcomes.length = images.length
    rw [transferLoop_outcomes]
    simp [List.enumFrom_length]
  · exact transferLoop_removes uploadOk dbOk procTime 0 images store

/-- C9 counterexample: a logout observed while a run is in flight resets the
guard refs (the logout effect in `Router.tsx`), so a re-login trigger starts
a second run while the first is still running — after the trace
login, timer fires (run 1 starts), logout, re-login, timer fires (run 2
starts) there are two runs in flight with none completed, refuting
"at most one reconciliation run is in flight at any time". -/
theorem guard_two_runs_in_flight_counterexample :
    ([GuardEvent.observe (some 1), GuardEvent.timerFire,
      GuardEvent.observe none, GuardEvent.observe (some 1),
      GuardEvent.timerFire].foldl guardStep guardInit).running = 2 ∧
    ([GuardEvent.observe (some 1), GuardEvent.timerFire,
      GuardEvent.observe none, GuardEvent.observe (some 1),
      GuardEvent.timerFire].foldl guardStep guardInit).started = 2 := by
  decide

/-- C9 amended: while the same login session persists (no logout
observation in the trace), at most one run is ever started and at most one
is in flight — an overlapping second trigger is dropped, not queued: an
observation arriving while a run is in flight starts nothing and schedules
no new timer.  The in-progress guard is released on run termination, but a
logout observation also resets it, which is what permits the counterexample
above. -/
theorem guard_single_run_per_login
    (events : List GuardEvent) (h : GuardEvent.observe none ∉ events)
    (s : GuardState) (hs : s.inProgress = true) (u : Option Nat) :
    (events.foldl guardStep guardInit).started ≤ 1 ∧
    (events.foldl guardStep guardInit).running ≤ 1 ∧
    (guardStep s (GuardEvent.observe u)).started = s.started ∧
    ((guardStep s (GuardEvent.observe u)).timerPending = true →
      s.timerPending = true) := by
  have hinv0 : guardInv guardInit := by
    unfold guardInv guardInit
    simp
  have hall : ∀ e ∈ events, e ≠ GuardEvent.observe none :=
    fun e he heq => h (heq ▸ he)
  obtain ⟨h1, _, h3⟩ := guardInv_foldl events guardInit hinv0 hall
  have hdrop := guardStep_observe_inflight s u hs
  refine ⟨?_, ?_, hdrop.1, hdrop.2.2⟩
  · cases htp : (events.foldl guardStep guardInit).timerPending <;>
      simp [htp] at h1 <;> omega
  · cases htp : (events.foldl guardStep guardInit).timerPending <;>
      simp [htp] at h1 <;> omega

/-- C9 witness: two overlapping login observations with no logout — the
first starts the single run, the second is dropped while it is in flight. -/
theorem guard_single_run_per_login_witness :
    (GuardEvent.observe none ∉
      [GuardEvent.observe (some 1), GuardEvent.timerFire,
       GuardEvent.observe (some 1), GuardEvent.timerFire,
       GuardEvent.complete]) ∧
    ({ prevUser := none, attempted := true, inProgress := true,
       timerPending := false, cleanupArmed := true, running := 1,
       started := 1 } : GuardState).inProgress = true ∧
    ([GuardEvent.observe (some 1), GuardEvent.timerFire,
      GuardEvent.observe (some 1), GuardEvent.timerFire,
      GuardEvent.complete].foldl guardStep guardInit).started ≤ 1 := by
  refine ⟨by decide, rfl, ?_⟩
  exact (guard_single_run_per_login
    [GuardEvent.observe (some 1), GuardEvent.timerFire,
     GuardEvent.observe (some 1), GuardEvent.timerFire,
     GuardEvent.complete] (by decide)
    { prevUser := none, attempted := true, inProgress := true,
      timerPending := false, cleanupArmed := true, running := 1,
      started := 1 } rfl (some 2)).1
